import Mathlib

/-!
Verification of the MCP-Data-Analyst repository against its specification.

The Python sources are shallowly embedded: Python strings are modelled as
`List Char` (namespace `Py` provides the handful of `str` methods the code
uses, with their CPython semantics on ASCII data), JSON documents as an
inductive `Json` value (the Python stdlib `json.dumps`/`json.loads` pair is
treated as the identity on this abstract syntax tree), the schema directory
as an association list from file name to parsed file content, and every
fallible external collaborator (database driver, LLM client) as an
`Except`-valued parameter.
-/

namespace Py

/-- Python `str` modelled as its list of characters. -/
abbrev Str := List Char

/-- The whitespace characters stripped by Python `str.strip()`. -/
def isspace (c : Char) : Bool :=
  c == ' ' || c == '\t' || c == '\n' || c == '\r' || c == '\x0b' || c == '\x0c'

/-- Python `str.lstrip()`. -/
def lstrip (s : Str) : Str := s.dropWhile isspace

/-- Python `str.rstrip()`. -/
def rstrip (s : Str) : Str := (s.reverse.dropWhile isspace).reverse

/-- Python `str.strip()`. -/
def strip (s : Str) : Str := rstrip (lstrip s)

/-- Python `str.upper()` (ASCII case mapping, as the sources only compare
SQL keywords). -/
def upper (s : Str) : Str := s.map Char.toUpper

/-- Python `str.startswith(p)`. -/
def startswith (s p : Str) : Bool := p.isPrefixOf s

/-- Python `str.endswith(p)`. -/
def endswith (s p : Str) : Bool := p.isSuffixOf s

/-- Python slicing `s[:-n]` for `n ≤ len(s)`. -/
def dropRightN (s : Str) (n : Nat) : Str := s.take (s.length - n)

/-- Decimal digits of a natural number, fuel-driven so the kernel can
evaluate it. -/
def natDigits : Nat → Nat → Str
  | 0, _ => []
  | fuel + 1, n =>
    if n < 10 then [Char.ofNat (48 + n)]
    else natDigits fuel (n / 10) ++ [Char.ofNat (48 + n % 10)]

/-- Python `str(n)` for a natural number `n`. -/
def natStr (n : Nat) : Str := natDigits (n + 1) n

end Py

/-- JSON values, the shape shared by the persisted schema units, the query
results and the response envelopes.  Python `dict`s keep insertion order, so
objects are ordered association lists.  `oid` stands for a MongoDB
`ObjectId` value appearing inside a result document. -/
inductive Json where
  | null : Json
  | bool : Bool → Json
  | num : Int → Json
  | str : Py.Str → Json
  | arr : List Json → Json
  | obj : List (Py.Str × Json) → Json
  | oid : Py.Str → Json
deriving Repr

/-- Embedding of `ColumnDefinition`
(`src/DataAnalyst/database/definitions.py:8-27`).  Field order matches the
`__init__` assignment order, which is the order `vars(col)` serializes. -/
structure ColumnDefinition where
  name : Py.Str
  data_type : Py.Str
  is_nullable : Bool
  is_primary_key : Bool
  is_foreign_key : Bool
  foreign_key_reference : Py.Str
  comments : Py.Str
deriving Repr, DecidableEq

/-- Embedding of `TableDefinition`
(`src/DataAnalyst/database/definitions.py:30-52`).  `columns` is a Python
dict from column name to `ColumnDefinition`, hence an insertion-ordered
association list. -/
structure TableDefinition where
  name : Py.Str
  columns : List (Py.Str × ColumnDefinition)
deriving Repr

/-- Python `vars(col)` as serialized by `TableDefinition.write_to_file`
(`src/DataAnalyst/database/definitions.py:41-48`). -/
def colVars (c : ColumnDefinition) : Json :=
  Json.obj [("name".toList, Json.str c.name),
            ("data_type".toList, Json.str c.data_type),
            ("is_nullable".toList, Json.bool c.is_nullable),
            ("is_primary_key".toList, Json.bool c.is_primary_key),
            ("is_foreign_key".toList, Json.bool c.is_foreign_key),
            ("foreign_key_reference".toList, Json.str c.foreign_key_reference),
            ("comments".toList, Json.str c.comments)]

/-- The JSON document that `TableDefinition.write_to_file` dumps:
`{"name": …, "columns": {name: vars(col) for …}}`. -/
def tableJson (t : TableDefinition) : Json :=
  Json.obj [("name".toList, Json.str t.name),
            ("columns".toList, Json.obj (t.columns.map fun p => (p.1, colVars p.2)))]

/-- The persisted schema directory: an association list from file name to
the parsed content of that file (`json.dump` on write and `json.load` on
read are the identity on the `Json` tree). -/
abbrev Dir := List (Py.Str × Json)

/-- Writing one file: `open(path, "w")` replaces any unit of the same
name (`src/DataAnalyst/database/definitions.py:43-44`). -/
def writeFile (d : Dir) (fname : Py.Str) (content : Json) : Dir :=
  d.filter (fun p => !(p.1 == fname)) ++ [(fname, content)]

/-- Embedding of `TableDefinition.write_to_file(storage_location)`: the unit is named
`f"{self.name}.json"` after the table. -/
def write_to_file (d : Dir) (t : TableDefinition) : Dir :=
  writeFile d (t.name ++ ".json".toList) (tableJson t)

/-- Reading a `ColumnDefinition` back out of a persisted unit's column
object; `none` when a field is missing or has the wrong shape. -/
def decodeColumn (j : Json) : Option ColumnDefinition :=
  match j with
  | Json.obj [(k1, Json.str nm), (k2, Json.str dt), (k3, Json.bool nl),
              (k4, Json.bool pk), (k5, Json.bool fk), (k6, Json.str ref),
              (k7, Json.str cm)] =>
    if k1 == "name".toList && k2 == "data_type".toList &&
       k3 == "is_nullable".toList && k4 == "is_primary_key".toList &&
       k5 == "is_foreign_key".toList && k6 == "foreign_key_reference".toList &&
       k7 == "comments".toList then
      some ⟨nm, dt, nl, pk, fk, ref, cm⟩
    else none
  | _ => none

/-- Reading a whole persisted column object back, entry by entry. -/
def decodeColumnList : List (Py.Str × Json) → Option (List (Py.Str × ColumnDefinition))
  | [] => some []
  | p :: rest =>
    match decodeColumn p.2, decodeColumnList rest with
    | some c, some cs => some ((p.1, c) :: cs)
    | _, _ => none

/-- Reading the ordered column mapping back out of a persisted unit. -/
def decodeColumns (j : Json) : Option (List (Py.Str × ColumnDefinition)) :=
  match j with
  | Json.obj [(k1, _), (k2, Json.obj cols)] =>
    if k1 == "name".toList && k2 == "columns".toList then decodeColumnList cols
    else none
  | _ => none

namespace Server

/-- Embedding of `server.is_select_statement` (`src/server.py:90-93`):
`query.strip().upper().startswith("SELECT")`. -/
def is_select_statement (query : Py.Str) : Bool :=
  Py.startswith (Py.upper (Py.strip query)) ("SELECT".toList)

/-- Stated from the spec's words, to be compared with
`is_select_statement`: the query with surrounding whitespace stripped
begins case-insensitively with the keyword `SELECT`. -/
def beginsWithSelectKeyword (query : Py.Str) : Bool :=
  ((Py.strip query).take 6).map Char.toUpper == "SELECT".toList

/-- Embedding of the sanitization step of `generate_sql_query`
(`src/server.py:111-121`): strip, trim a leading ` ```sql ` fence, a
leading ` ``` ` fence and a trailing ` ``` ` fence, strip again. -/
def sanitize (content : Py.Str) : Py.Str :=
  let s := Py.strip content
  let s := if Py.startswith s ("```sql".toList) then s.drop 6 else s
  let s := if Py.startswith s ("```".toList) then s.drop 3 else s
  let s := if Py.endswith s ("```".toList) then Py.dropRightN s 3 else s
  Py.strip s

/-- Embedding of `server.generate_sql_query` (`src/server.py:96-129`).
The LLM call is the external collaborator; its outcome (raw response text,
or a raised client error) is the `llm` argument.  Any exception inside the
`try` block is re-raised as `RuntimeError("Failed to generate SQL query: …")`. -/
def generate_sql_query (llm : Except Py.Str Py.Str) : Except Py.Str Py.Str :=
  match llm with
  | .error e => .error ("Failed to generate SQL query: ".toList ++ e)
  | .ok raw =>
    let q := sanitize raw
    if is_select_statement q then .ok q
    else .error ("Failed to generate SQL query: Only SELECT statements are allowed. Generated query does not start with SELECT: ".toList ++ q)

/-- The failure envelope `{"success": false, "error": e}` built by every
`except` branch in `src/server.py`. -/
def failEnvelope (e : Py.Str) : Json :=
  Json.obj [("success".toList, Json.bool false), ("error".toList, Json.str e)]

/-- Embedding of `server.execute_sql_query` (`src/server.py:161-189`).
`db` is the outcome of `get_db_connection()` (an adapter whose
`execute_query` returns a JSON document, or a raised error), so the
function is total: every internal failure becomes an envelope. -/
def execute_sql_query (db : Except Py.Str (Py.Str → Except Py.Str Json))
    (query : Py.Str) : Json :=
  if is_select_statement query = false then
    failEnvelope ("Only SELECT statements are allowed. This query does not start with SELECT.".toList)
  else
    match db with
    | .error e => failEnvelope e
    | .ok exec =>
      match exec query with
      | .error e => failEnvelope e
      | .ok data =>
        Json.obj [("success".toList, Json.bool true), ("data".toList, data)]

/-- Embedding of `server.query_database_with_prompt` (`src/server.py:132-159`). -/
def query_database_with_prompt (llm : Except Py.Str Py.Str)
    (db : Except Py.Str (Py.Str → Except Py.Str Json)) : Json :=
  match generate_sql_query llm with
  | .error e => failEnvelope e
  | .ok sql =>
    match db with
    | .error e => failEnvelope e
    | .ok exec =>
      match exec sql with
      | .error e => failEnvelope e
      | .ok data =>
        Json.obj [("success".toList, Json.bool true),
                  ("query".toList, Json.str sql), ("data".toList, data)]

/-- Embedding of `server.get_database_schema` (`src/server.py:193-208`).
`cache` is the in-memory `_schema_cache` mapping. -/
def get_database_schema (cache : List (Py.Str × Json)) : Json :=
  if cache.isEmpty then
    failEnvelope ("Schema not loaded. Please run build_db_definition first.".toList)
  else
    Json.obj [("success".toList, Json.bool true), ("schema".toList, Json.obj cache)]

/-- Outcome of `db.build_definition(schema_dir)`: the adapter writes one
unit per introspected table as it goes, so a raised introspection error
leaves the units already written (`written`) on disk. -/
inductive BuildOutcome where
  | ok (tables : List TableDefinition)
  | fail (written : List TableDefinition) (msg : Py.Str)

/-- Folding the per-table `write_to_file` calls of an adapter's
`build_definition` over the schema directory. -/
def writeTables (d : Dir) (ts : List TableDefinition) : Dir :=
  ts.foldl write_to_file d

/-- The `"Remove existing schema files"` loop of `build_db_definition`
(`src/server.py:229-231`): delete every file whose name ends in `.json`. -/
def deleteJsonFiles (d : Dir) : Dir :=
  d.filter (fun p => !(Py.endswith p.1 (".json".toList)))

/-- The `"Reload schema cache"` loop of `build_db_definition`
(`src/server.py:237-243`): for every `.json` file, cache its parsed
content under the file name with the `.json` extension removed. -/
def loadCache (d : Dir) : List (Py.Str × Json) :=
  d.filterMap (fun p =>
    if Py.endswith p.1 (".json".toList) then some (Py.dropRightN p.1 5, p.2) else none)

/-- The server's mutable state touched by `build_db_definition`: the
schema directory and the in-memory `_schema_cache`. -/
structure ServerState where
  dir : Dir
  cache : List (Py.Str × Json)

/-- Embedding of `server.build_db_definition` (`src/server.py:210-254`).
`db` is the outcome of `get_db_connection()` together with what the
adapter's `build_definition` will do.  The source order is: acquire the
connection, delete every `.json` unit, run the introspection (which writes
the fresh units), and only then clear and repopulate `_schema_cache`; any
raised error is converted into the failure envelope. -/
def build_db_definition (db : Except Py.Str BuildOutcome) (st : ServerState) :
    ServerState × Json :=
  match db with
  | .error e => (st, failEnvelope e)
  | .ok outcome =>
    let d1 := deleteJsonFiles st.dir
    match outcome with
    | .fail written msg => ({ dir := writeTables d1 written, cache := st.cache }, failEnvelope msg)
    | .ok ts =>
      let d2 := writeTables d1 ts
      let newCache := loadCache d2
      ({ dir := d2, cache := newCache },
       Json.obj [("success".toList, Json.bool true),
                 ("message".toList, Json.str ("Successfully loaded schema for ".toList ++ Py.natStr newCache.length ++ " tables".toList)),
                 ("tables".toList, Json.arr (newCache.map fun p => Json.str p.1))])

end Server

/-- Python dict assignment `d[k] = v`: replace the value when the key is
present, otherwise append (insertion order preserved). -/
def dictInsert {V : Type} (l : List (Py.Str × V)) (k : Py.Str) (v : V) :
    List (Py.Str × V) :=
  if l.any (fun p => p.1 == k) then l.map (fun p => if p.1 == k then (k, v) else p)
  else l ++ [(k, v)]

/-- Python `d.get(k, default)`. -/
def dictGet {V : Type} (l : List (Py.Str × V)) (k : Py.Str) (default : V) : V :=
  match l.find? (fun p => p.1 == k) with
  | some p => p.2
  | none => default

/-- Python `k in d`. -/
def dictHas {V : Type} (l : List (Py.Str × V)) (k : Py.Str) : Bool :=
  l.any (fun p => p.1 == k)

/-- In-place mutation of the `ColumnDefinition` object stored under a key,
as done through `get_column_by_name` on the shared dict. -/
def dictUpdate {V : Type} (l : List (Py.Str × V)) (k : Py.Str) (f : V → V) :
    List (Py.Str × V) :=
  l.map (fun p => if p.1 == k then (p.1, f p.2) else p)

/-- Python `x or ""` on an optional string (the `column[8] or ""` comment
fallback in the MySQL introspection). -/
def orEmpty (x : Option Py.Str) : Py.Str := x.getD []

/-- Rendering a nullable SQL result field inside a Python f-string:
`None` prints as `"None"`. -/
def fstr (x : Option Py.Str) : Py.Str :=
  match x with
  | some s => s
  | none => "None".toList

namespace MySQL

/-- One row of `SHOW FULL COLUMNS FROM <table>`, restricted to the indices
the code reads (`src/DataAnalyst/database/Type/MySQL.py:62-69`): `column[0]`
(Field), `column[1]` (Type), `column[3]` (Null), `column[4]` (Key) and
`column[8]` (Comment, nullable). -/
structure ColumnRow where
  field0 : Py.Str
  field1 : Py.Str
  field3 : Py.Str
  field4 : Py.Str
  field8 : Option Py.Str

/-- One row of the `INFORMATION_SCHEMA.KEY_COLUMN_USAGE` query
(`src/DataAnalyst/database/Type/MySQL.py:85-90`): `TABLE_NAME`,
`COLUMN_NAME`, `CONSTRAINT_NAME`, `REFERENCED_TABLE_NAME`,
`REFERENCED_COLUMN_NAME` (the last two are NULL for non-referential
constraints). -/
structure FkRow where
  tbl : Py.Str
  col : Py.Str
  constraintName : Py.Str
  refTable : Option Py.Str
  refColumn : Option Py.Str

/-- The first column loop of `MySQL.build_definition`
(`src/DataAnalyst/database/Type/MySQL.py:61-80`). -/
def columnsInit (rows : List ColumnRow) : List (Py.Str × ColumnDefinition) :=
  rows.foldl (fun acc r =>
    dictInsert acc r.field0
      { name := r.field0
        data_type := r.field1
        is_nullable := r.field3 == "YES".toList
        is_primary_key := r.field4 == "PRI".toList
        is_foreign_key := r.field4 == "MUL".toList
        foreign_key_reference := []
        comments := orEmpty r.field8 }) []

/-- One iteration of the foreign-key loop of `MySQL.build_definition`
(`src/DataAnalyst/database/Type/MySQL.py:93-100`). -/
def applyFk (tableName : Py.Str) (cols : List (Py.Str × ColumnDefinition))
    (fk : FkRow) : List (Py.Str × ColumnDefinition) :=
  if fk.tbl == tableName && !(fk.constraintName == "PRIMARY".toList) &&
     dictHas cols fk.col then
    dictUpdate cols fk.col (fun c =>
      { c with is_foreign_key := true
               foreign_key_reference := fstr fk.refTable ++ ".".toList ++ fstr fk.refColumn })
  else cols

/-- The `TableDefinition` that `MySQL.build_definition` produces for one
table from its column rows and the schema-wide key-usage rows. -/
def buildTable (tableName : Py.Str) (rows : List ColumnRow)
    (fks : List FkRow) : TableDefinition :=
  ⟨tableName, fks.foldl (applyFk tableName) (columnsInit rows)⟩

/-- Embedding of `MySQL.build_definition`
(`src/DataAnalyst/database/Type/MySQL.py:49-104`): builds and persists one
unit per discovered table. -/
def build_definition (tables : List (Py.Str × List ColumnRow))
    (fks : List FkRow) (d : Dir) : Dir :=
  tables.foldl (fun d p => write_to_file d (buildTable p.1 p.2 fks)) d

end MySQL

namespace PostgreSQL

/-- One row of the `information_schema.columns` query, restricted to the
fields the code reads (`src/DataAnalyst/database/Type/PostgreSQL.py:63-69`):
`column_name`, `data_type`, `is_nullable`. -/
structure ColumnRow where
  colName : Py.Str
  dataType : Py.Str
  nullable : Py.Str

/-- The foreign-key dict `{row[0]: f"{row[1]}.{row[2]}" for row …}`
(`src/DataAnalyst/database/Type/PostgreSQL.py:92`); rows are
`(column_name, referenced_table, referenced_column)`. -/
def foreignKeysDict (rows : List (Py.Str × Py.Str × Py.Str)) :
    List (Py.Str × Py.Str) :=
  rows.foldl (fun acc r => dictInsert acc r.1 (r.2.1 ++ ".".toList ++ r.2.2)) []

/-- The `TableDefinition` that `PostgreSQL.build_definition` produces for
one table (`src/DataAnalyst/database/Type/PostgreSQL.py:94-114`):
`primaryKeys` is the primary-key name set, `fkRows` the foreign-key query
rows. -/
def buildTable (tableName : Py.Str) (rows : List ColumnRow)
    (primaryKeys : List Py.Str) (fkRows : List (Py.Str × Py.Str × Py.Str)) :
    TableDefinition :=
  let fks := foreignKeysDict fkRows
  ⟨tableName,
   rows.foldl (fun acc r =>
     dictInsert acc r.colName
       { name := r.colName
         data_type := r.dataType
         is_nullable := r.nullable == "YES".toList
         is_primary_key := primaryKeys.contains r.colName
         is_foreign_key := dictHas fks r.colName
         foreign_key_reference := dictGet fks r.colName []
         comments := [] }) []⟩

/-- Embedding of `PostgreSQL.build_definition`
(`src/DataAnalyst/database/Type/PostgreSQL.py:49-117`); each element of
`tables` carries the per-table results of the three catalog queries. -/
def build_definition
    (tables : List (Py.Str × List ColumnRow × List Py.Str × List (Py.Str × Py.Str × Py.Str)))
    (d : Dir) : Dir :=
  tables.foldl (fun d p => write_to_file d (buildTable p.1 p.2.1 p.2.2.1 p.2.2.2)) d

end PostgreSQL

/-- Python `x or default` on an optional string: `None` and the empty
string both fall back to the default. -/
def pyOr (x : Option Py.Str) (d : Py.Str) : Py.Str :=
  match x with
  | some v => if v.isEmpty then d else v
  | none => d

namespace MSSQL

/-- One row of the `INFORMATION_SCHEMA.COLUMNS` query, restricted to the
fields the code reads (`src/DataAnalyst/database/Type/MSSQL.py:96-100`):
`COLUMN_NAME`, `DATA_TYPE`, `IS_NULLABLE`. -/
structure ColumnRow where
  colName : Py.Str
  dataType : Py.Str
  nullable : Py.Str

/-- The foreign-key dict `{row[0]: f"{row[1]}.{row[2]}" for row …}`
(`src/DataAnalyst/database/Type/MSSQL.py:94`); rows are
`(COLUMN_NAME, REFERENCED_TABLE_NAME, REFERENCED_COLUMN_NAME)`. -/
def foreignKeysDict (rows : List (Py.Str × Py.Str × Py.Str)) :
    List (Py.Str × Py.Str) :=
  rows.foldl (fun acc r => dictInsert acc r.1 (r.2.1 ++ ".".toList ++ r.2.2)) []

/-- The `TableDefinition` that `MSSQL.build_definition` produces for one
table (`src/DataAnalyst/database/Type/MSSQL.py:96-116`). -/
def buildTable (tableName : Py.Str) (rows : List ColumnRow)
    (primaryKeys : List Py.Str) (fkRows : List (Py.Str × Py.Str × Py.Str)) :
    TableDefinition :=
  let fks := foreignKeysDict fkRows
  ⟨tableName,
   rows.foldl (fun acc r =>
     dictInsert acc r.colName
       { name := r.colName
         data_type := r.dataType
         is_nullable := r.nullable == "YES".toList
         is_primary_key := primaryKeys.contains r.colName
         is_foreign_key := dictHas fks r.colName
         foreign_key_reference := dictGet fks r.colName []
         comments := [] }) []⟩

/-- Embedding of `MSSQL.build_definition`
(`src/DataAnalyst/database/Type/MSSQL.py:50-119`). -/
def build_definition
    (tables : List (Py.Str × List ColumnRow × List Py.Str × List (Py.Str × Py.Str × Py.Str)))
    (d : Dir) : Dir :=
  tables.foldl (fun d p => write_to_file d (buildTable p.1 p.2.1 p.2.2.1 p.2.2.2)) d

end MSSQL

namespace SQLite

/-- One row of `PRAGMA table_info(<table>)`, restricted to the fields the
code reads (`src/DataAnalyst/database/Type/SQLite.py:60-67`): `name`,
`type`, `notnull`, `pk`. -/
structure ColumnRow where
  colName : Py.Str
  dataType : Py.Str
  notNullFlag : Bool
  pkFlag : Nat

/-- One row of `PRAGMA foreign_key_list(<table>)`, restricted to the
fields used (`src/DataAnalyst/database/Type/SQLite.py:78-83`): the
referenced table, the local column, and the referenced column (NULL when
the reference is implicit). -/
structure FkRow where
  tableRef : Py.Str
  fromCol : Py.Str
  toCol : Option Py.Str

/-- The first column loop of `SQLite.build_definition`
(`src/DataAnalyst/database/Type/SQLite.py:59-72`): `is_nullable` negates
the `notnull` pragma flag, `is_primary_key` is the truthiness of the `pk`
flag, and no column starts as a foreign key. -/
def columnsInit (rows : List ColumnRow) : List (Py.Str × ColumnDefinition) :=
  rows.foldl (fun acc r =>
    dictInsert acc r.colName
      { name := r.colName
        data_type := r.dataType
        is_nullable := !r.notNullFlag
        is_primary_key := decide (r.pkFlag ≠ 0)
        is_foreign_key := false
        foreign_key_reference := []
        comments := [] }) []

/-- One iteration of the foreign-key loop
(`src/DataAnalyst/database/Type/SQLite.py:78-83`): sets the flag and the
`f"{table_ref}.{to_col}"` reference together. -/
def applyFk (cols : List (Py.Str × ColumnDefinition)) (fk : FkRow) :
    List (Py.Str × ColumnDefinition) :=
  if dictHas cols fk.fromCol then
    dictUpdate cols fk.fromCol (fun c =>
      { c with is_foreign_key := true
               foreign_key_reference := fk.tableRef ++ ".".toList ++ fstr fk.toCol })
  else cols

/-- The `TableDefinition` that `SQLite.build_definition` produces for one
table. -/
def buildTable (tableName : Py.Str) (rows : List ColumnRow)
    (fks : List FkRow) : TableDefinition :=
  ⟨tableName, fks.foldl applyFk (columnsInit rows)⟩

/-- Embedding of `SQLite.build_definition`
(`src/DataAnalyst/database/Type/SQLite.py:43-88`). -/
def build_definition (tables : List (Py.Str × List ColumnRow × List FkRow))
    (d : Dir) : Dir :=
  tables.foldl (fun d p => write_to_file d (buildTable p.1 p.2.1 p.2.2)) d

end SQLite

namespace SSAS

/-- One row of the `$System.MDSCHEMA_DIMENSIONS` query
(`src/DataAnalyst/database/Type/SSAS.py:132-135`): name, unique name, and
a possibly NULL/empty dimension type defaulting to `Standard`. -/
structure DimRow where
  dimName : Py.Str
  dimUniqueName : Py.Str
  dimType : Option Py.Str

/-- One row of the `$System.MDSCHEMA_MEASURES` query
(`src/DataAnalyst/database/Type/SSAS.py:149-152`): name, unique name, and
a possibly NULL/empty data type defaulting to `Decimal`. -/
structure MeasureRow where
  measureName : Py.Str
  measureUniqueName : Py.Str
  dataType : Option Py.Str

/-- The `TableDefinition` that `SSAS.build_definition` produces for one
cube (`src/DataAnalyst/database/Type/SSAS.py:128-166`): dimensions then
measures, both always nullable, never keys. -/
def buildCube (cubeName : Py.Str) (dims : List DimRow)
    (measures : List MeasureRow) : TableDefinition :=
  let withDims := dims.foldl (fun acc d =>
    dictInsert acc d.dimName
      { name := d.dimName
        data_type := "Dimension (".toList ++ pyOr d.dimType ("Standard".toList) ++ ")".toList
        is_nullable := true
        is_primary_key := false
        is_foreign_key := false
        foreign_key_reference := []
        comments := "Dimension: ".toList ++ d.dimUniqueName }) []
  ⟨cubeName,
   measures.foldl (fun acc m =>
     dictInsert acc m.measureName
       { name := m.measureName
         data_type := "Measure (".toList ++ pyOr m.dataType ("Decimal".toList) ++ ")".toList
         is_nullable := true
         is_primary_key := false
         is_foreign_key := false
         foreign_key_reference := []
         comments := "Measure: ".toList ++ m.measureUniqueName }) withDims⟩

end SSAS

namespace Elasticsearch

/-- The `TableDefinition` that `Elasticsearch.build_definition` produces
for one index from its declared mapping properties
(`src/DataAnalyst/database/Type/Elasticsearch.py:49-67`): each field is a
column with `field_info.get("type", "object")` as its type, always
nullable, never a key. -/
def buildIndex (indexName : Py.Str) (fields : List (Py.Str × Option Py.Str)) :
    TableDefinition :=
  ⟨indexName,
   fields.foldl (fun acc f =>
     dictInsert acc f.1
       { name := f.1
         data_type := f.2.getD ("object".toList)
         is_nullable := true
         is_primary_key := false
         is_foreign_key := false
         foreign_key_reference := []
         comments := [] }) []⟩

end Elasticsearch

namespace InfluxDB

/-- One point of `SHOW FIELD KEYS FROM <measurement>`
(`src/DataAnalyst/database/Type/InfluxDB.py:56-58`): `fieldKey` may be
absent, `fieldType` defaults to `string`. -/
structure FieldRow where
  fieldKey : Option Py.Str
  fieldType : Option Py.Str

/-- The `TableDefinition` that `InfluxDB.build_definition` produces for
one measurement (`src/DataAnalyst/database/Type/InfluxDB.py:54-70`): a
field is skipped when its name is falsy (`if field_name:`), every kept
column is nullable and never a key. -/
def buildMeasurement (measurement : Py.Str) (fields : List FieldRow) :
    TableDefinition :=
  ⟨measurement,
   fields.foldl (fun acc f =>
     match f.fieldKey with
     | none => acc
     | some n =>
       if n.isEmpty then acc
       else
         dictInsert acc n
           { name := n
             data_type := f.fieldType.getD ("string".toList)
             is_nullable := true
             is_primary_key := false
             is_foreign_key := false
             foreign_key_reference := []
             comments := [] }) []⟩

end InfluxDB


namespace MongoDB

/-- Python `s.rindex(c)` as an option: index of the last occurrence. -/
def rlastIdx (s : Py.Str) (c : Char) : Option Nat :=
  match s.reverse.findIdx? (· == c) with
  | some k => some (s.length - 1 - k)
  | none => none

/-- The parsing phase of `MongoDB.execute_query`
(`src/DataAnalyst/database/Type/MongoDB.py:44-55`): split on the first
`.` for the collection name, the first `(` bounds the operation name, the
last `)` bounds the argument text (a missing `)` makes `rindex` raise
`ValueError`).  Returns `(collection, operation, argument-text)`. -/
def parseQuery (q : Py.Str) : Except Py.Str (Py.Str × Py.Str × Py.Str) :=
  if !(q.any (· == '.')) then
    .error ("Query must be in format: collection_name.operation(args)".toList)
  else
    let collectionName := q.takeWhile (· != '.')
    let operationPart := (q.dropWhile (· != '.')).tail
    if !(operationPart.any (· == '(')) then
      .error ("Query must include operation with parentheses".toList)
    else
      let i := (operationPart.takeWhile (· != '(')).length
      match rlastIdx operationPart ')' with
      | none => .error ("substring not found".toList)
      | some j => .ok (collectionName, operationPart.take i, (operationPart.take j).drop (i + 1))

/-- The live collection operations of the pymongo driver, the external
collaborator behind `MongoDB.execute_query`.  `find`/`count_documents`
called without argument are the same driver calls with the empty filter. -/
structure Ops where
  find : Py.Str → Json → List Json
  findOne : Py.Str → Json → Option Json
  countDocs : Py.Str → Json → Int
  aggregate : Py.Str → List Json → List Json
  distinctVals : Py.Str → Py.Str → List Json

/-- The dispatch phase of `MongoDB.execute_query`
(`src/DataAnalyst/database/Type/MongoDB.py:63-90`): a closed set of five
operation names, everything else raises `Unsupported operation`. -/
def dispatch (ops : Ops) (collectionName op : Py.Str) (args : Json) :
    Except Py.Str (List Json) :=
  if op == "find".toList then
    match args with
    | Json.obj _ => .ok (ops.find collectionName args)
    | _ => .ok (ops.find collectionName (Json.obj []))
  else if op == "find_one".toList then
    match args with
    | Json.obj _ => .ok [(ops.findOne collectionName args).getD Json.null]
    | _ => .ok [(ops.findOne collectionName (Json.obj [])).getD Json.null]
  else if op == "count_documents".toList then
    match args with
    | Json.obj _ => .ok [Json.obj [("count".toList, Json.num (ops.countDocs collectionName args))]]
    | _ => .ok [Json.obj [("count".toList, Json.num (ops.countDocs collectionName (Json.obj [])))]]
  else if op == "aggregate".toList then
    match args with
    | Json.arr stages => .ok (ops.aggregate collectionName stages)
    | _ => .error ("aggregate requires a list of pipeline stages".toList)
  else if op == "distinct".toList then
    match args with
    | Json.str f => .ok [Json.obj [("values".toList, Json.arr (ops.distinctVals collectionName f))]]
    | Json.obj kvs =>
      match dictGet kvs ("field".toList) (Json.str []) with
      | Json.str f => .ok [Json.obj [("values".toList, Json.arr (ops.distinctVals collectionName f))]]
      | _ => .error ("key must be an instance of str".toList)
    | _ => .error ("object has no attribute get".toList)
  else .error ("Unsupported operation: ".toList ++ op)

/-- Embedding of `convert_objectid` (`src/DataAnalyst/database/Type/MongoDB.py:93-101`):
recursively turn every `ObjectId` inside dicts and lists into its string
form; dict keys are left untouched. -/
def convertObjectId : Json → Json
  | .null => .null
  | .bool b => .bool b
  | .num n => .num n
  | .str s => .str s
  | .oid s => .str s
  | .arr xs => .arr (xs.attach.map fun x => convertObjectId x.1)
  | .obj kvs => .obj (kvs.attach.map fun p => (p.1.1, convertObjectId p.1.2))
termination_by j => sizeOf j
decreasing_by
  · have h := List.sizeOf_lt_of_mem x.2
    simp only [Json.arr.sizeOf_spec]
    omega
  · have h := List.sizeOf_lt_of_mem p.2
    obtain ⟨⟨a, b⟩, hab⟩ := p
    simp only [Prod.mk.sizeOf_spec] at h
    simp only [Json.obj.sizeOf_spec]
    omega

/-- Embedding of `MongoDB.execute_query`
(`src/DataAnalyst/database/Type/MongoDB.py:31-105`).  `jloads` is the
stdlib `json.loads` collaborator for the argument text; every raised error
is re-raised as `RuntimeError("Failed to execute MongoDB query: …")`. -/
def runOperation (jloads : Py.Str → Except Py.Str Json) (ops : Ops)
    (q : Py.Str) : Except Py.Str Json :=
  match parseQuery q with
  | .error e => .error e
  | .ok (collectionName, op, argsStr) =>
    match (if (Py.strip argsStr).isEmpty then .ok (Json.obj []) else jloads argsStr :
        Except Py.Str Json) with
    | .error e => .error e
    | .ok args =>
      match dispatch ops collectionName op args with
      | .error e => .error e
      | .ok results => .ok (convertObjectId (Json.arr results))

/-- The `except`-reraise wrapper of `MongoDB.execute_query`
(`src/DataAnalyst/database/Type/MongoDB.py:104-105`). -/
def execute_query (jloads : Py.Str → Except Py.Str Json) (ops : Ops)
    (q : Py.Str) : Except Py.Str Json :=
  match runOperation jloads ops q with
  | .error e => .error ("Failed to execute MongoDB query: ".toList ++ e)
  | .ok r => .ok r

/-- A sampled document as `MongoDB.build_definition` inspects it: the code
looks only at `value is None` and `type(value).__name__`, so a field value
is abstracted to `none` (Python `None`) or `some t` with `t` the value's
type name. -/
abbrev Doc := List (Py.Str × Option Py.Str)

/-- The per-field accumulator of `MongoDB.build_definition`
(`src/DataAnalyst/database/Type/MongoDB.py:123-136`): the Python
`set()` of type names is kept as its insertion-ordered duplicate-free
list, since only its sorted form is ever used. -/
structure FieldInfo where
  types : List Py.Str
  nullable : Bool
  is_id : Bool
deriving Repr, DecidableEq

/-- Adding one element to the type-name set. -/
def insertType (ts : List Py.Str) (t : Py.Str) : List Py.Str :=
  if ts.contains t then ts else ts ++ [t]

/-- One `(field, value)` iteration of the sampling loop
(`src/DataAnalyst/database/Type/MongoDB.py:125-136`). -/
def stepField (acc : List (Py.Str × FieldInfo)) (fv : Py.Str × Option Py.Str) :
    List (Py.Str × FieldInfo) :=
  let acc := if dictHas acc fv.1 then acc
             else acc ++ [(fv.1, ⟨[], false, fv.1 == "_id".toList⟩)]
  dictUpdate acc fv.1 (fun info =>
    match fv.2 with
    | none => { info with nullable := true }
    | some t => { info with types := insertType info.types t })

/-- Python `sorted` on strings: lexicographic code-point comparison. -/
def strLe (a b : Py.Str) : Bool :=
  match a, b with
  | [], _ => true
  | _ :: _, [] => false
  | x :: xs, y :: ys => if x < y then true else if y < x then false else strLe xs ys

/-- Inserting into a sorted list of strings. -/
def insertSorted (x : Py.Str) : List Py.Str → List Py.Str
  | [] => [x]
  | y :: ys => if strLe x y then x :: y :: ys else y :: insertSorted x ys

/-- Python `sorted` on a set of strings (the set holds no duplicates, so
any correct sort produces the same list). -/
def sortStrs (l : List Py.Str) : List Py.Str := l.foldr insertSorted []

/-- Python `", ".join(sorted(types))`. -/
def joinSorted (ts : List Py.Str) : Py.Str :=
  List.intercalate (", ".toList) (sortStrs ts)

/-- The `ColumnDefinition` built for one inferred field
(`src/DataAnalyst/database/Type/MongoDB.py:139-152`); `nSamples` is
`len(sample_docs)`. -/
def fieldColumn (nSamples : Nat) (field : Py.Str) (info : FieldInfo) :
    ColumnDefinition :=
  { name := field
    data_type := if info.types.isEmpty then "mixed".toList else joinSorted info.types
    is_nullable := info.nullable
    is_primary_key := info.is_id
    is_foreign_key := false
    foreign_key_reference := []
    comments := "Inferred from ".toList ++ Py.natStr nSamples ++ " sample documents".toList }

/-- The column mapping `MongoDB.build_definition` infers for one
collection (`src/DataAnalyst/database/Type/MongoDB.py:113-152`): sample
`find().limit(100)`, accumulate field info, build one column per field. -/
def inferColumns (docs : List Doc) : List (Py.Str × ColumnDefinition) :=
  let sample := docs.take 100
  let allFields := sample.foldl (fun acc doc => doc.foldl stepField acc) []
  allFields.map (fun p => (p.1, fieldColumn sample.length p.1 p.2))

/-- Embedding of `MongoDB.build_definition`
(`src/DataAnalyst/database/Type/MongoDB.py:107-158`): one unit per
non-empty collection. -/
def build_definition (collections : List (Py.Str × List Doc)) (d : Dir) : Dir :=
  collections.foldl (fun d p =>
    if (p.2.take 100).isEmpty then d
    else write_to_file d ⟨p.1, inferColumns p.2⟩) d

end MongoDB

/-- Embedding of the `DbTypes` enum
(`src/DataAnalyst/database/DbTypes.py`). -/
inductive DbTypes where
  | MYSQL | POSTGRESQL | MSSQL | MONGODB | SQLITE | SSAS | ELASTICSEARCH | INFLUXDB
deriving Repr, DecidableEq

/-- The string `.value` of each `DbTypes` member. -/
def DbTypes.value : DbTypes → Py.Str
  | .MYSQL => "mysql".toList
  | .POSTGRESQL => "postgresql".toList
  | .MSSQL => "mssql".toList
  | .MONGODB => "mongodb".toList
  | .SQLITE => "sqlite".toList
  | .SSAS => "ssas".toList
  | .ELASTICSEARCH => "elasticsearch".toList
  | .INFLUXDB => "influxdb".toList

/-- Python `==` between a plain `Enum` member and a string: `DbTypes` does
not mix in `str`, so default identity-based `Enum.__eq__` applies and the
comparison is `False` for every member and every string. -/
def enumEqStr (_ : DbTypes) (_ : Py.Str) : Bool := false

namespace Config

/-- Embedding of `Config.validate` (`src/DataAnalyst/config.py:33-48`):
collect an error line per failed check and raise iff any check failed. -/
def validate (llmApiKey dbName dbType : Py.Str) : Except Py.Str Unit :=
  let errs : List Py.Str :=
    (if llmApiKey.isEmpty then ["LLM_API_KEY is required".toList] else []) ++
    (if dbName.isEmpty then ["DB_NAME is required".toList] else []) ++
    (if !(dbType == "mysql".toList || dbType == "postgresql".toList) then
       ["DB_TYPE must be one of: mysql, postgresql".toList] else [])
  if errs.isEmpty then .ok ()
  else .error ("Configuration errors:".toList ++ (errs.map (fun e => "\n  - ".toList ++ e)).flatten)

/-- Embedding of `Config.get_db_type` (`src/DataAnalyst/config.py:50-58`). -/
def get_db_type (dbType : Py.Str) : Except Py.Str DbTypes :=
  if dbType == "mysql".toList then .ok DbTypes.MYSQL
  else if dbType == "postgresql".toList then .ok DbTypes.POSTGRESQL
  else .error ("Unsupported DB_TYPE: ".toList ++ dbType)

end Config

/-- The adapter class chosen by `get_db_connection`. -/
inductive AdapterKind where
  | mysql | postgresql | mssql | mongodb | sqlite
deriving Repr, DecidableEq

namespace Server

/-- Embedding of `server.get_db_connection` (`src/server.py:27-49`) on a
cold cache (`_database_instance is None`): `db_type` is the `DbTypes`
member returned by `Config.get_db_type()`, and each branch compares it
with `DbTypes.<X>.value`, a string, via plain-`Enum` equality
(`enumEqStr`). -/
def get_db_connection (dbTypeCfg : Py.Str) : Except Py.Str AdapterKind :=
  match Config.get_db_type dbTypeCfg with
  | .error e => .error e
  | .ok dbType =>
    if enumEqStr dbType DbTypes.MYSQL.value then .ok AdapterKind.mysql
    else if enumEqStr dbType DbTypes.POSTGRESQL.value then .ok AdapterKind.postgresql
    else if enumEqStr dbType DbTypes.MSSQL.value then .ok AdapterKind.mssql
    else if enumEqStr dbType DbTypes.MONGODB.value then .ok AdapterKind.mongodb
    else if enumEqStr dbType DbTypes.SQLITE.value then .ok AdapterKind.sqlite
    else .error ("Unsupported database type: ".toList ++ (reprStr dbType).toList)

end Server

namespace Lifecycle

/-- A live driver connection object abstracted to whether it has been
closed; `none` models a `connection` attribute holding Python `None`
(falsy), which never arises after a successful constructor but is what the
`if self.connection` guards test for. -/
abbrev Conn := Option Bool

/-- The `mysql-connector` call `connection.is_connected()`: false once closed. -/
def mysqlIsConnected (closed : Bool) : Bool := !closed

/-- Embedding of `MySQL.close` (`src/DataAnalyst/database/Type/MySQL.py:106-109`):
close only `if self.connection and self.connection.is_connected()`. -/
def mysqlClose (c : Conn) : Except Py.Str Conn :=
  match c with
  | none => .ok none
  | some closed => if mysqlIsConnected closed then .ok (some true) else .ok (some closed)

/-- Embedding of `PostgreSQL.close` (`src/DataAnalyst/database/Type/PostgreSQL.py:119-122`):
close only `if self.connection and not self.connection.closed`. -/
def postgresqlClose (c : Conn) : Except Py.Str Conn :=
  match c with
  | none => .ok none
  | some closed => if !closed then .ok (some true) else .ok (some closed)

/-- pyodbc `Connection.close()`: raises
`ProgrammingError("Attempt to use a closed connection.")` when the handle
was already closed. -/
def pyodbcClose (closed : Bool) : Except Py.Str Bool :=
  if closed then .error ("Attempt to use a closed connection.".toList) else .ok true

/-- Embedding of `MSSQL.close` (`src/DataAnalyst/database/Type/MSSQL.py:121-124`):
`if self.connection: self.connection.close()` — the guard only tests that
the attribute is set, not that the handle is still open. -/
def mssqlClose (c : Conn) : Except Py.Str Conn :=
  match c with
  | none => .ok none
  | some closed => (pyodbcClose closed).map some

/-- The remaining adapters guard only on attribute truthiness, so their
idempotence is exactly the driver close's tolerance of a repeated call.
Python `sqlite3`'s `Connection.close()` is a documented no-op on an
already-closed connection, as are pymongo's `MongoClient.close()`, the
Elasticsearch client's `close()` and the InfluxDB client's `close()`
(which closes a `requests` session). -/
def tolerantClose (c : Conn) : Except Py.Str Conn :=
  match c with
  | none => .ok none
  | some _ => .ok (some true)

/-- Embedding of `SQLite.close` (`src/DataAnalyst/database/Type/SQLite.py:90-93`):
`if self.connection: self.connection.close()` over `sqlite3`. -/
def sqliteClose (c : Conn) : Except Py.Str Conn := tolerantClose c

/-- Embedding of `MongoDB.close` (`src/DataAnalyst/database/Type/MongoDB.py:160-163`):
`if self.client: self.client.close()` over pymongo. -/
def mongodbClose (c : Conn) : Except Py.Str Conn := tolerantClose c

/-- Embedding of `Elasticsearch.close`
(`src/DataAnalyst/database/Type/Elasticsearch.py:72-75`):
`if self.client: self.client.close()` over the Elasticsearch client. -/
def elasticsearchClose (c : Conn) : Except Py.Str Conn := tolerantClose c

/-- Embedding of `InfluxDB.close` (`src/DataAnalyst/database/Type/InfluxDB.py:75-78`):
`if self.client: self.client.close()` over the InfluxDB client. -/
def influxdbClose (c : Conn) : Except Py.Str Conn := tolerantClose c

/-- Embedding of `SSAS.close` (`src/DataAnalyst/database/Type/SSAS.py:174-177`):
`if self.connection: self.connection.close()` over the same pyodbc driver
as MSSQL — the guard only tests that the attribute is set. -/
def ssasClose (c : Conn) : Except Py.Str Conn :=
  match c with
  | none => .ok none
  | some closed => (pyodbcClose closed).map some

end Lifecycle

/-- A trivial driver-operation bundle used to instantiate theorems about
the document-store parser. -/
def trivialMongoOps : MongoDB.Ops :=
  ⟨fun _ _ => [], fun _ _ => none, fun _ _ => 0, fun _ _ => [], fun _ _ => []⟩

/-- Field lookup inside a JSON object. -/
def lookupField (j : Json) (k : Py.Str) : Option Json :=
  match j with
  | Json.obj fields => (fields.find? (fun p => p.1 == k)).map Prod.snd
  | _ => none

/-- The envelope contract of section 6 of the spec: a `success: false`
envelope carrying a string `error` field. -/
def isFailureEnvelope (j : Json) : Prop :=
  lookupField j ("success".toList) = some (Json.bool false)
  ∧ ∃ s, lookupField j ("error".toList) = some (Json.str s)

/-- The envelope contract of section 6 of the spec: either a
`success: true` envelope, or a failure envelope with a string error. -/
def envelopeOk (j : Json) : Prop :=
  lookupField j ("success".toList) = some (Json.bool true) ∨ isFailureEnvelope j

/-- A concrete column used to instantiate the foreign-key invariant. -/
def pgSampleColumn : ColumnDefinition :=
  ⟨"a".toList, "integer".toList, true, false, true, "b.c".toList, []⟩

/-- A concrete column used to instantiate the foreign-key invariant. -/
def mssqlSampleColumn : ColumnDefinition :=
  ⟨"a".toList, "int".toList, true, false, true, "b.c".toList, []⟩

/-- A concrete column used to instantiate the foreign-key invariant. -/
def sqliteSampleColumn : ColumnDefinition :=
  ⟨"a".toList, "INTEGER".toList, true, false, true, "b.c".toList, []⟩

/-- A concrete column used to instantiate the foreign-key invariant. -/
def ssasSampleColumn : ColumnDefinition :=
  ⟨"m".toList, "Measure (Int)".toList, true, false, false, [],
   "Measure: [m]".toList⟩

/-- A concrete column used to instantiate the foreign-key invariant. -/
def esSampleColumn : ColumnDefinition :=
  ⟨"f".toList, "keyword".toList, true, false, false, [], []⟩

/-- A concrete column used to instantiate the foreign-key invariant. -/
def influxSampleColumn : ColumnDefinition :=
  ⟨"f".toList, "string".toList, true, false, false, [], []⟩

/-- A concrete column used to instantiate the foreign-key invariant. -/
def mysqlSampleColumn : ColumnDefinition :=
  ⟨"a".toList, "int".toList, false, false, true, "b.c".toList, []⟩

/-- The invariant tying the accumulated per-field info of
`MongoDB.build_definition`'s sampling loop to the processed
`(field, value)` items. -/
def FieldsInv (items : List (Py.Str × Option Py.Str))
    (acc : List (Py.Str × MongoDB.FieldInfo)) : Prop :=
  (∀ f v, (f, v) ∈ items → ∃ i, (f, i) ∈ acc)
  ∧ (∀ f i, (f, i) ∈ acc →
      i.is_id = (f == "_id".toList)
      ∧ (i.nullable = true ↔ (f, none) ∈ items)
      ∧ i.types.Nodup
      ∧ (∀ t, t ∈ i.types ↔ (f, some t) ∈ items))

/-- The sampled collection used to exercise the schema-inference claims:
field `x` is present in the first document and absent from the second. -/
def C7docs : List MongoDB.Doc :=
  [[("_id".toList, some ("ObjectId".toList)), ("x".toList, some ("int".toList))],
   [("_id".toList, some ("ObjectId".toList))]]

/-- The column the code infers for field `x` of `C7docs`. -/
def xSampleColumn : ColumnDefinition :=
  ⟨"x".toList, "int".toList, false, false, false, [],
   "Inferred from 2 sample documents".toList⟩

/-! ## Helper lemmas -/

theorem startswith_map (p s : Py.Str) (f : Char → Char) :
    Py.startswith (s.map f) p = ((s.take p.length).map f == p) := by
  unfold Py.startswith
  rw [Bool.eq_iff_iff, List.isPrefixOf_iff_prefix, beq_iff_eq,
    List.prefix_iff_eq_take, List.map_take]
  exact eq_comm

theorem is_select_statement_eq (q : Py.Str) :
    Server.is_select_statement q = Server.beginsWithSelectKeyword q := by
  unfold Server.is_select_statement Server.beginsWithSelectKeyword Py.upper
  rw [startswith_map]
  rfl

theorem decodeColumn_colVars (c : ColumnDefinition) : decodeColumn (colVars c) = some c := rfl

theorem find?_writeFile (d : Dir) (fname : Py.Str) (content : Json) :
    ((writeFile d fname content).find? (fun p => p.1 == fname)) = some (fname, content) := by
  unfold writeFile
  rw [List.find?_append]
  have h : (d.filter (fun p => !(p.1 == fname))).find? (fun p => p.1 == fname) = none := by
    rw [List.find?_eq_none]
    intro p hp
    have := (List.mem_filter.mp hp).2
    simpa using this
  simp [h]

theorem mem_dictInsert {V : Type} {l : List (Py.Str × V)} {k : Py.Str} {v : V}
    {p : Py.Str × V} (h : p ∈ dictInsert l k v) : p ∈ l ∨ p = (k, v) := by
  unfold dictInsert at h
  split at h
  · rcases List.mem_map.mp h with ⟨q, hq, hpq⟩
    by_cases hk : q.1 == k
    · right; simp [hk] at hpq; exact hpq.symm
    · left; simp [hk] at hpq; exact hpq ▸ hq
  · rcases List.mem_append.mp h with h' | h'
    · exact Or.inl h'
    · right; simpa using h'

theorem mem_dictUpdate {V : Type} {l : List (Py.Str × V)} {k : Py.Str} {f : V → V}
    {p : Py.Str × V} (h : p ∈ dictUpdate l k f) :
    p ∈ l ∨ ∃ q ∈ l, p = (q.1, f q.2) := by
  unfold dictUpdate at h
  rcases List.mem_map.mp h with ⟨q, hq, hpq⟩
  by_cases hk : q.1 == k
  · right; exact ⟨q, hq, by simp [hk] at hpq; exact hpq.symm⟩
  · left; simp [hk] at hpq; exact hpq ▸ hq

theorem foldl_preserves {A B : Type} (P : B → Prop) {step : B → A → B}
    (hstep : ∀ b a, P b → P (step b a)) :
    ∀ (l : List A) (b : B), P b → P (l.foldl step b) := by
  intro l
  induction l with
  | nil => intro b h; exact h
  | cons a as ih => intro b h; exact ih _ (hstep b a h)

theorem foreignKeysDict_values (rows : List (Py.Str × Py.Str × Py.Str)) :
    ∀ p ∈ PostgreSQL.foreignKeysDict rows, p.2 ≠ [] := by
  unfold PostgreSQL.foreignKeysDict
  suffices h : ∀ (acc : List (Py.Str × Py.Str)), (∀ p ∈ acc, p.2 ≠ []) →
      ∀ p ∈ rows.foldl (fun acc r => dictInsert acc r.1 (r.2.1 ++ ".".toList ++ r.2.2)) acc, p.2 ≠ [] by
    exact h [] (by simp)
  induction rows with
  | nil => intro acc hacc p hp; exact hacc p hp
  | cons r rs ih =>
    intro acc hacc p hp
    refine ih _ ?_ p hp
    intro q hq
    rcases mem_dictInsert hq with h' | h'
    · exact hacc q h'
    · subst h'
      simp

theorem dictHas_iff_dictGet {l : List (Py.Str × Py.Str)}
    (hv : ∀ p ∈ l, p.2 ≠ []) (k : Py.Str) :
    dictHas l k = true ↔ dictGet l k [] ≠ [] := by
  unfold dictHas dictGet
  constructor
  · intro h
    rcases List.any_eq_true.mp h with ⟨q, hq, hqk⟩
    rcases hfind : l.find? (fun p => p.1 == k) with _ | found
    · rw [List.find?_eq_none] at hfind
      exact absurd hqk (by simpa using hfind q hq)
    · rw [hfind]
      exact hv found (List.mem_of_find?_eq_some hfind)
  · intro h
    rcases hfind : l.find? (fun p => p.1 == k) with _ | found
    · rw [hfind] at h; simp at h
    · have hp := List.find?_some hfind
      exact List.any_eq_true.mpr ⟨found, List.mem_of_find?_eq_some hfind, hp⟩

theorem mem_dictUpdate_cases {V : Type} {l : List (Py.Str × V)} {k : Py.Str} {g : V → V}
    {p : Py.Str × V} (h : p ∈ dictUpdate l k g) :
    (p ∈ l ∧ p.1 ≠ k) ∨ (∃ w, (k, w) ∈ l ∧ p = (k, g w)) := by
  unfold dictUpdate at h
  rcases List.mem_map.mp h with ⟨q, hq, hpq⟩
  obtain ⟨q1, q2⟩ := q
  by_cases hk : q1 = k
  · right
    subst hk
    refine ⟨q2, hq, ?_⟩
    simpa using hpq.symm
  · left
    simp [hk] at hpq
    subst hpq
    exact ⟨hq, hk⟩

theorem fkIff_of_false {c : ColumnDefinition} (h1 : c.is_foreign_key = false)
    (h2 : c.foreign_key_reference = []) :
    c.is_foreign_key = true ↔ c.foreign_key_reference ≠ [] := by
  rw [h1, h2]
  simp

theorem mssql_foreignKeysDict_values (rows : List (Py.Str × Py.Str × Py.Str)) :
    ∀ p ∈ MSSQL.foreignKeysDict rows, p.2 ≠ [] := by
  unfold MSSQL.foreignKeysDict
  suffices h : ∀ (acc : List (Py.Str × Py.Str)), (∀ p ∈ acc, p.2 ≠ []) →
      ∀ p ∈ rows.foldl (fun acc r => dictInsert acc r.1 (r.2.1 ++ ".".toList ++ r.2.2)) acc, p.2 ≠ [] by
    exact h [] (by simp)
  induction rows with
  | nil => intro acc hacc p hp; exact hacc p hp
  | cons r rs ih =>
    intro acc hacc p hp
    refine ih _ ?_ p hp
    intro q hq
    rcases mem_dictInsert hq with h' | h'
    · exact hacc q h'
    · subst h'
      simp

/-! ## Claim theorems -/

/-- Claim C1: the query validator accepts a string exactly when the string
with surrounding whitespace stripped begins case-insensitively with the
keyword `SELECT`; it accepts `"SELECT * FROM t"` and `"  select 1"`,
rejects `"DROP TABLE t"`, `"UPDATE t SET x=1"` and the CTE-prefixed
statement, and a rejected string is never repaired (generation raises) nor
executed (the execution entry point returns the fixed rejection envelope
without consulting the database). -/
theorem C1_select_validator :
    (∀ q : Py.Str, Server.is_select_statement q = Server.beginsWithSelectKeyword q)
    ∧ Server.is_select_statement ("SELECT * FROM t".toList) = true
    ∧ Server.is_select_statement ("  select 1".toList) = true
    ∧ Server.is_select_statement ("DROP TABLE t".toList) = false
    ∧ Server.is_select_statement ("UPDATE t SET x=1".toList) = false
    ∧ Server.is_select_statement ("WITH c AS (SELECT 1) SELECT * FROM c".toList) = false
    ∧ (∀ raw : Py.Str, Server.is_select_statement (Server.sanitize raw) = false →
        ∃ e, Server.generate_sql_query (.ok raw) = .error e)
    ∧ (∀ (db db' : Except Py.Str (Py.Str → Except Py.Str Json)) (q : Py.Str),
        Server.is_select_statement q = false →
        Server.execute_sql_query db q =
          Server.failEnvelope ("Only SELECT statements are allowed. This query does not start with SELECT.".toList)
        ∧ Server.execute_sql_query db q = Server.execute_sql_query db' q) := by
  refine ⟨is_select_statement_eq, by decide, by decide, by decide, by decide, by decide, ?_, ?_⟩
  · intro raw h
    refine ⟨"Failed to generate SQL query: Only SELECT statements are allowed. Generated query does not start with SELECT: ".toList ++ Server.sanitize raw, ?_⟩
    simp only [Server.generate_sql_query]
    rw [if_neg (by simp [h])]
  · intro db db' q h
    exact ⟨by simp only [Server.execute_sql_query, h, if_pos],
           by simp only [Server.execute_sql_query, h, if_pos]⟩

/-- Witness for C1 at concrete inputs: `"DROP TABLE t"` is rejected, never
executed, and generation on it fails. -/
theorem C1_select_validator_witness :
    (∃ e, Server.generate_sql_query (.ok ("DROP TABLE t".toList)) = .error e)
    ∧ Server.execute_sql_query (.ok fun _ => .ok Json.null) ("DROP TABLE t".toList) =
        Server.failEnvelope ("Only SELECT statements are allowed. This query does not start with SELECT.".toList) :=
  ⟨C1_select_validator.2.2.2.2.2.2.1 ("DROP TABLE t".toList) (by decide),
   (C1_select_validator.2.2.2.2.2.2.2 (.ok fun _ => .ok Json.null)
      (.ok fun _ => .ok Json.null) ("DROP TABLE t".toList) (by decide)).1⟩

/-- Claim C4: persisting any `TableDefinition` through the Schema Store and
reloading the persisted JSON unit yields a column mapping identical to the
original in order, names, and every column field: the unit stored under
`"{name}.json"` is exactly `tableJson t`, and decoding its column object
returns `t.columns` unchanged. -/
theorem C4_roundtrip (d : Dir) (t : TableDefinition) :
    ((write_to_file d t).find? (fun p => p.1 == t.name ++ ".json".toList)).map Prod.snd
      = some (tableJson t)
    ∧ decodeColumns (tableJson t) = some t.columns := by
  constructor
  · rw [write_to_file, find?_writeFile]
    rfl
  · have h : ∀ cols : List (Py.Str × ColumnDefinition),
        decodeColumnList (cols.map fun p => (p.1, colVars p.2)) = some cols := by
      intro cols
      induction cols with
      | nil => rfl
      | cons hd tl ih => simp [decodeColumnList, decodeColumn_colVars, ih]
    simp only [decodeColumns, tableJson]
    rw [if_pos (by decide)]
    exact h t.columns

/-- Claim C2 counterexample: the MySQL introspection marks a column whose
`SHOW FULL COLUMNS` key flag is `MUL` (an ordinary non-unique index, no
matching row in `KEY_COLUMN_USAGE`) as a foreign key while leaving the
reference empty, so `is_foreign_key = true` with
`foreign_key_reference = ""` is produced, contradicting the claimed
invariant. -/
theorem C2_counterexample :
    ((MySQL.buildTable ("t".toList)
        [⟨"a".toList, "int".toList, "NO".toList, "MUL".toList, none⟩] []).columns.map
          (fun p => (p.2.is_foreign_key, p.2.foreign_key_reference))) = [(true, [])] := by
  decide

/-- Claim C2 amended: the invariant `is_foreign_key = true ↔
foreign_key_reference ≠ ""` holds for every column produced by the
PostgreSQL, MSSQL, SQLite, MongoDB, SSAS, Elasticsearch and InfluxDB
introspections; for MySQL only the backward direction holds (a non-empty
reference implies the flag), since a `MUL`-keyed column without a
foreign-key constraint row gets the flag with an empty reference. -/
theorem C2_fk_invariant :
    (∀ (tn : Py.Str) (rows : List PostgreSQL.ColumnRow) (pks : List Py.Str)
       (fkRows : List (Py.Str × Py.Str × Py.Str)),
       ∀ p ∈ (PostgreSQL.buildTable tn rows pks fkRows).columns,
         p.2.is_foreign_key = true ↔ p.2.foreign_key_reference ≠ [])
    ∧ (∀ (tn : Py.Str) (rows : List MySQL.ColumnRow) (fks : List MySQL.FkRow),
       ∀ p ∈ (MySQL.buildTable tn rows fks).columns,
         p.2.foreign_key_reference ≠ [] → p.2.is_foreign_key = true)
    ∧ (∀ (tn : Py.Str) (rows : List MSSQL.ColumnRow) (pks : List Py.Str)
       (fkRows : List (Py.Str × Py.Str × Py.Str)),
       ∀ p ∈ (MSSQL.buildTable tn rows pks fkRows).columns,
         p.2.is_foreign_key = true ↔ p.2.foreign_key_reference ≠ [])
    ∧ (∀ (tn : Py.Str) (rows : List SQLite.ColumnRow) (fks : List SQLite.FkRow),
       ∀ p ∈ (SQLite.buildTable tn rows fks).columns,
         p.2.is_foreign_key = true ↔ p.2.foreign_key_reference ≠ [])
    ∧ (∀ (docs : List MongoDB.Doc),
       ∀ p ∈ MongoDB.inferColumns docs,
         p.2.is_foreign_key = true ↔ p.2.foreign_key_reference ≠ [])
    ∧ (∀ (cn : Py.Str) (dims : List SSAS.DimRow) (ms : List SSAS.MeasureRow),
       ∀ p ∈ (SSAS.buildCube cn dims ms).columns,
         p.2.is_foreign_key = true ↔ p.2.foreign_key_reference ≠ [])
    ∧ (∀ (ix : Py.Str) (fields : List (Py.Str × Option Py.Str)),
       ∀ p ∈ (Elasticsearch.buildIndex ix fields).columns,
         p.2.is_foreign_key = true ↔ p.2.foreign_key_reference ≠ [])
    ∧ (∀ (m : Py.Str) (fields : List InfluxDB.FieldRow),
       ∀ p ∈ (InfluxDB.buildMeasurement m fields).columns,
         p.2.is_foreign_key = true ↔ p.2.foreign_key_reference ≠ []) := by
  refine ⟨?_, ?_, ?_, ?_, ?_, ?_, ?_, ?_⟩
  · intro tn rows pks fkRows
    unfold PostgreSQL.buildTable
    have hv := foreignKeysDict_values fkRows
    refine foldl_preserves
      (fun cols : List (Py.Str × ColumnDefinition) => ∀ p ∈ cols, p.2.is_foreign_key = true ↔ p.2.foreign_key_reference ≠ [])
      ?_ rows [] (by simp)
    intro cols r hcols p hp
    rcases mem_dictInsert hp with h' | h'
    · exact hcols p h'
    · subst h'
      exact dictHas_iff_dictGet hv r.colName
  · intro tn rows fks
    unfold MySQL.buildTable
    show ∀ p ∈ List.foldl (MySQL.applyFk tn) (MySQL.columnsInit rows) fks,
      p.2.foreign_key_reference ≠ [] → p.2.is_foreign_key = true
    refine foldl_preserves
      (fun cols : List (Py.Str × ColumnDefinition) => ∀ p ∈ cols, p.2.foreign_key_reference ≠ [] → p.2.is_foreign_key = true)
      ?_ fks (MySQL.columnsInit rows) ?_
    · intro cols fk hcols p hp
      unfold MySQL.applyFk at hp
      split at hp
      · rcases mem_dictUpdate hp with h' | ⟨q, hq, h'⟩
        · exact hcols p h'
        · subst h'
          intro _
          rfl
      · exact hcols p hp
    · refine foldl_preserves
        (fun cols : List (Py.Str × ColumnDefinition) => ∀ p ∈ cols, p.2.foreign_key_reference ≠ [] → p.2.is_foreign_key = true)
        ?_ rows [] (by simp)
      intro cols r hcols p hp
      rcases mem_dictInsert hp with h' | h'
      · exact hcols p h'
      · subst h'
        intro hcontra
        exact absurd rfl hcontra
  · intro tn rows pks fkRows
    unfold MSSQL.buildTable
    have hv := mssql_foreignKeysDict_values fkRows
    refine foldl_preserves
      (fun cols : List (Py.Str × ColumnDefinition) => ∀ p ∈ cols, p.2.is_foreign_key = true ↔ p.2.foreign_key_reference ≠ [])
      ?_ rows [] (by simp)
    intro cols r hcols p hp
    rcases mem_dictInsert hp with h' | h'
    · exact hcols p h'
    · subst h'
      exact dictHas_iff_dictGet hv r.colName
  · intro tn rows fks
    unfold SQLite.buildTable
    show ∀ p ∈ List.foldl SQLite.applyFk (SQLite.columnsInit rows) fks, _
    refine foldl_preserves
      (fun cols : List (Py.Str × ColumnDefinition) => ∀ p ∈ cols, p.2.is_foreign_key = true ↔ p.2.foreign_key_reference ≠ [])
      ?_ fks (SQLite.columnsInit rows) ?_
    · intro cols fk hcols p hp
      unfold SQLite.applyFk at hp
      split at hp
      · rcases mem_dictUpdate_cases hp with ⟨hin, _⟩ | ⟨w, hw, heq⟩
        · exact hcols p hin
        · subst heq
          simp
      · exact hcols p hp
    · unfold SQLite.columnsInit
      refine foldl_preserves
        (fun cols : List (Py.Str × ColumnDefinition) => ∀ p ∈ cols, p.2.is_foreign_key = true ↔ p.2.foreign_key_reference ≠ [])
        ?_ rows [] (by simp)
      intro cols r hcols p hp
      rcases mem_dictInsert hp with h' | h'
      · exact hcols p h'
      · subst h'
        exact fkIff_of_false rfl rfl
  · intro docs p hp
    unfold MongoDB.inferColumns at hp
    rcases List.mem_map.mp hp with ⟨q, _, hpq⟩
    rw [← hpq]
    exact fkIff_of_false rfl rfl
  · intro cn dims ms
    unfold SSAS.buildCube
    show ∀ p ∈ List.foldl _ (List.foldl _ [] dims) ms, _
    refine foldl_preserves
      (fun cols : List (Py.Str × ColumnDefinition) => ∀ p ∈ cols, p.2.is_foreign_key = true ↔ p.2.foreign_key_reference ≠ [])
      ?_ ms _ ?_
    · intro cols m hcols p hp
      rcases mem_dictInsert hp with h' | h'
      · exact hcols p h'
      · subst h'
        exact fkIff_of_false rfl rfl
    · refine foldl_preserves
        (fun cols : List (Py.Str × ColumnDefinition) => ∀ p ∈ cols, p.2.is_foreign_key = true ↔ p.2.foreign_key_reference ≠ [])
        ?_ dims [] (by simp)
      intro cols d hcols p hp
      rcases mem_dictInsert hp with h' | h'
      · exact hcols p h'
      · subst h'
        exact fkIff_of_false rfl rfl
  · intro ix fields
    unfold Elasticsearch.buildIndex
    refine foldl_preserves
      (fun cols : List (Py.Str × ColumnDefinition) => ∀ p ∈ cols, p.2.is_foreign_key = true ↔ p.2.foreign_key_reference ≠ [])
      ?_ fields [] (by simp)
    intro cols f hcols p hp
    rcases mem_dictInsert hp with h' | h'
    · exact hcols p h'
    · subst h'
      exact fkIff_of_false rfl rfl
  · intro m fields
    unfold InfluxDB.buildMeasurement
    refine foldl_preserves
      (fun cols : List (Py.Str × ColumnDefinition) => ∀ p ∈ cols, p.2.is_foreign_key = true ↔ p.2.foreign_key_reference ≠ [])
      ?_ fields [] (by simp)
    intro cols f hcols p hp
    rcases hfk : f.fieldKey with _ | n
    · simp only [hfk] at hp
      exact hcols p hp
    · simp only [hfk] at hp
      by_cases hn : List.isEmpty n = true
      · rw [if_pos hn] at hp
        exact hcols p hp
      · rw [if_neg hn] at hp
        rcases mem_dictInsert hp with h' | h'
        · exact hcols p h'
        · subst h'
          exact fkIff_of_false rfl rfl

/-- Witness for C2 at concrete introspection inputs for all eight
engines: a PostgreSQL, MSSQL or SQLite column backed by a foreign-key row
satisfies the equivalence with a non-empty reference, a MySQL column
rewritten by a key-usage row has the flag set, and an inferred MongoDB,
SSAS, Elasticsearch or InfluxDB column satisfies it with the flag and the
reference both unset. -/
theorem C2_fk_invariant_witness :
    (pgSampleColumn.is_foreign_key = true ↔ pgSampleColumn.foreign_key_reference ≠ [])
    ∧ mysqlSampleColumn.is_foreign_key = true
    ∧ (mssqlSampleColumn.is_foreign_key = true ↔ mssqlSampleColumn.foreign_key_reference ≠ [])
    ∧ (sqliteSampleColumn.is_foreign_key = true ↔ sqliteSampleColumn.foreign_key_reference ≠ [])
    ∧ (xSampleColumn.is_foreign_key = true ↔ xSampleColumn.foreign_key_reference ≠ [])
    ∧ (ssasSampleColumn.is_foreign_key = true ↔ ssasSampleColumn.foreign_key_reference ≠ [])
    ∧ (esSampleColumn.is_foreign_key = true ↔ esSampleColumn.foreign_key_reference ≠ [])
    ∧ (influxSampleColumn.is_foreign_key = true ↔ influxSampleColumn.foreign_key_reference ≠ []) :=
  ⟨C2_fk_invariant.1 ("t".toList) [⟨"a".toList, "integer".toList, "YES".toList⟩] []
      [("a".toList, "b".toList, "c".toList)] ("a".toList, pgSampleColumn) (by decide),
   (C2_fk_invariant.2.1 ("t".toList)
      [⟨"a".toList, "int".toList, "NO".toList, "".toList, none⟩]
      [⟨"t".toList, "a".toList, "fk1".toList, some ("b".toList), some ("c".toList)⟩]
      ("a".toList, mysqlSampleColumn) (by decide) (by decide)),
   C2_fk_invariant.2.2.1 ("t".toList) [⟨"a".toList, "int".toList, "YES".toList⟩] []
      [("a".toList, "b".toList, "c".toList)] ("a".toList, mssqlSampleColumn) (by decide),
   C2_fk_invariant.2.2.2.1 ("t".toList) [⟨"a".toList, "INTEGER".toList, false, 0⟩]
      [⟨"b".toList, "a".toList, some ("c".toList)⟩]
      ("a".toList, sqliteSampleColumn) (by decide),
   C2_fk_invariant.2.2.2.2.1 C7docs ("x".toList, xSampleColumn) (by decide),
   C2_fk_invariant.2.2.2.2.2.1 ("c".toList) []
      [⟨"m".toList, "[m]".toList, some ("Int".toList)⟩]
      ("m".toList, ssasSampleColumn) (by decide),
   C2_fk_invariant.2.2.2.2.2.2.1 ("i".toList) [("f".toList, some ("keyword".toList))]
      ("f".toList, esSampleColumn) (by decide),
   C2_fk_invariant.2.2.2.2.2.2.2 ("m".toList) [⟨some ("f".toList), none⟩]
      ("f".toList, influxSampleColumn) (by decide)⟩

/-- Claim C8 counterexample: the MSSQL and SSAS adapters' `close` is not
idempotent: a first call succeeds, but a second call re-invokes the pyodbc
driver's `close` on the already-closed handle, which raises
`ProgrammingError("Attempt to use a closed connection.")`. -/
theorem C8_counterexample :
    (Lifecycle.mssqlClose (some false) = .ok (some true)
      ∧ Lifecycle.mssqlClose (some true) = .error ("Attempt to use a closed connection.".toList))
    ∧ (Lifecycle.ssasClose (some false) = .ok (some true)
      ∧ Lifecycle.ssasClose (some true) = .error ("Attempt to use a closed connection.".toList)) :=
  ⟨⟨rfl, rfl⟩, ⟨rfl, rfl⟩⟩

/-- Claim C8 amended: `close` is idempotent for six of the eight adapters
— MySQL and PostgreSQL guard the driver-level close behind
`is_connected()` / `not connection.closed` and skip it once closed, while
SQLite, MongoDB, Elasticsearch and InfluxDB guard only on attribute
truthiness but sit on drivers whose `close` tolerates a repeated call —
so any number of calls succeed from any state; the MSSQL and SSAS
adapters use the same truthiness-only guard over pyodbc, whose `close`
raises on an already-closed handle, so their first close succeeds but a
repeated close raises. -/
theorem C8_close_idempotent :
    (∀ c : Lifecycle.Conn, ∃ c', Lifecycle.mysqlClose c = .ok c' ∧ Lifecycle.mysqlClose c' = .ok c')
    ∧ (∀ c : Lifecycle.Conn, ∃ c', Lifecycle.postgresqlClose c = .ok c' ∧ Lifecycle.postgresqlClose c' = .ok c')
    ∧ (∀ c : Lifecycle.Conn, ∃ c', Lifecycle.sqliteClose c = .ok c' ∧ Lifecycle.sqliteClose c' = .ok c')
    ∧ (∀ c : Lifecycle.Conn, ∃ c', Lifecycle.mongodbClose c = .ok c' ∧ Lifecycle.mongodbClose c' = .ok c')
    ∧ (∀ c : Lifecycle.Conn, ∃ c', Lifecycle.elasticsearchClose c = .ok c' ∧ Lifecycle.elasticsearchClose c' = .ok c')
    ∧ (∀ c : Lifecycle.Conn, ∃ c', Lifecycle.influxdbClose c = .ok c' ∧ Lifecycle.influxdbClose c' = .ok c')
    ∧ (Lifecycle.mssqlClose none = .ok none
       ∧ Lifecycle.mssqlClose (some false) = .ok (some true)
       ∧ Lifecycle.mssqlClose (some true) = .error ("Attempt to use a closed connection.".toList))
    ∧ (Lifecycle.ssasClose none = .ok none
       ∧ Lifecycle.ssasClose (some false) = .ok (some true)
       ∧ Lifecycle.ssasClose (some true) = .error ("Attempt to use a closed connection.".toList)) := by
  refine ⟨?_, ?_, ?_, ?_, ?_, ?_, ⟨rfl, rfl, rfl⟩, ⟨rfl, rfl, rfl⟩⟩ <;>
    (intro c
     rcases c with _ | b
     · exact ⟨none, rfl, rfl⟩
     · cases b
       · exact ⟨some true, rfl, rfl⟩
       · exact ⟨some true, rfl, rfl⟩)

/-- Claim C10: `Config.validate` raises exactly when the API key is empty,
the database name is empty, or the database type is outside
{mysql, postgresql} — but a configuration that passes validation still
never selects an adapter: `get_db_connection` compares the `DbTypes` enum
member returned by `Config.get_db_type()` against the member's string
`.value`, which is always `False` for a plain Python `Enum`, so every
branch is unreachable and the function raises `ValueError` even for
`DB_TYPE="mysql"`. -/
theorem C10_validate_and_dispatch :
    (∀ k n t : Py.Str, Config.validate k n t = .ok () ↔
      (k ≠ [] ∧ n ≠ [] ∧ (t = "mysql".toList ∨ t = "postgresql".toList)))
    ∧ (∀ t : Py.Str, ∃ e, Server.get_db_connection t = .error e)
    ∧ Config.validate ("k".toList) ("db".toList) ("mysql".toList) = .ok ()
    ∧ Server.get_db_connection ("mysql".toList) =
        .error ("Unsupported database type: ".toList ++ (reprStr DbTypes.MYSQL).toList) := by
  refine ⟨?_, ?_, by rfl, by rfl⟩
  · intro k n t
    unfold Config.validate
    by_cases hk : k.isEmpty <;> by_cases hn : n.isEmpty <;>
      by_cases ht : (t == "mysql".toList || t == "postgresql".toList) <;>
      simp_all [List.isEmpty_iff] <;> tauto
  · intro t
    unfold Server.get_db_connection Config.get_db_type
    by_cases h1 : t = "mysql".toList
    · subst h1
      exact ⟨_, rfl⟩
    · by_cases h2 : t = "postgresql".toList
      · subst h2
        exact ⟨_, rfl⟩
      · refine ⟨"Unsupported DB_TYPE: ".toList ++ t, ?_⟩
        rw [if_neg (by simpa using h1), if_neg (by simpa using h2)]

/-- Python `f"{name}.json"` always ends with the `.json` extension. -/
theorem endswith_append (s suf : Py.Str) : Py.endswith (s ++ suf) suf = true := by
  unfold Py.endswith
  exact List.isSuffixOf_iff_suffix.mpr (List.suffix_append s suf)

theorem failEnvelope_isFailure (e : Py.Str) : isFailureEnvelope (Server.failEnvelope e) :=
  ⟨rfl, e, rfl⟩

/-- Claim C5: every top-level entry point returns a JSON envelope with a
boolean `success` field, with `success: false` plus a string `error` field
on every failure path; the embeddings are total functions into `Json`
(every fallible collaborator outcome is consumed), so no internal fault
crosses the boundary. -/
theorem C5_envelopes :
    (∀ llm (db : Except Py.Str (Py.Str → Except Py.Str Json)),
      envelopeOk (Server.query_database_with_prompt llm db))
    ∧ (∀ (db : Except Py.Str (Py.Str → Except Py.Str Json)) q,
      envelopeOk (Server.execute_sql_query db q))
    ∧ (∀ cache, envelopeOk (Server.get_database_schema cache))
    ∧ (∀ db st, envelopeOk (Server.build_db_definition db st).2)
    ∧ (∀ e, isFailureEnvelope (Server.failEnvelope e)) := by
  refine ⟨?_, ?_, ?_, ?_, failEnvelope_isFailure⟩
  · intro llm db
    unfold Server.query_database_with_prompt
    split
    · exact Or.inr (failEnvelope_isFailure _)
    · split
      · exact Or.inr (failEnvelope_isFailure _)
      · split
        · exact Or.inr (failEnvelope_isFailure _)
        · exact Or.inl rfl
  · intro db q
    unfold Server.execute_sql_query
    split
    · exact Or.inr (failEnvelope_isFailure _)
    · split
      · exact Or.inr (failEnvelope_isFailure _)
      · split
        · exact Or.inr (failEnvelope_isFailure _)
        · exact Or.inl rfl
  · intro cache
    unfold Server.get_database_schema
    split
    · exact Or.inr (failEnvelope_isFailure _)
    · exact Or.inl rfl
  · intro db st
    unfold Server.build_db_definition
    split
    · exact Or.inr (failEnvelope_isFailure _)
    · split
      · exact Or.inr (failEnvelope_isFailure _)
      · exact Or.inl rfl

/-- Claim C9: when the rebuild fails — the connection cannot be acquired,
or the adapter's introspection raises after writing any number of units —
the in-memory schema cache is exactly what it was before the call, and the
caller receives the failure envelope; the cache is cleared and repopulated
only on the success path. -/
theorem C9_cache_on_failure :
    ∀ (st : Server.ServerState),
      (∀ e, (Server.build_db_definition (.error e) st).1.cache = st.cache
        ∧ (Server.build_db_definition (.error e) st).2 = Server.failEnvelope e)
      ∧ (∀ ws m, (Server.build_db_definition (.ok (.fail ws m)) st).1.cache = st.cache
        ∧ (Server.build_db_definition (.ok (.fail ws m)) st).2 = Server.failEnvelope m) := by
  intro st
  exact ⟨fun e => ⟨rfl, rfl⟩, fun ws m => ⟨rfl, rfl⟩⟩

/-- Claim C3: a rebuild deletes every persisted `.json` unit before the
fresh introspection writes new ones, so after a completed rebuild no unit
exists for a table omitted by the current introspection — a full replace,
never a merge. -/
theorem C3_full_replace :
    (∀ (d : Dir), ∀ q ∈ Server.deleteJsonFiles d, Py.endswith q.1 (".json".toList) = false)
    ∧ (∀ (ts : List TableDefinition) (st : Server.ServerState) (t : Py.Str),
        (∀ tb ∈ ts, tb.name ≠ t) →
        ∀ q ∈ (Server.build_db_definition (.ok (.ok ts)) st).1.dir,
          q.1 ≠ t ++ ".json".toList) := by
  constructor
  · intro d q hq
    have := (List.mem_filter.mp hq).2
    simpa using this
  · intro ts st t hts
    have base : ∀ q ∈ Server.deleteJsonFiles st.dir, q.1 ≠ t ++ ".json".toList := by
      intro q hq hcontra
      have h1 := (List.mem_filter.mp hq).2
      rw [hcontra] at h1
      simp [endswith_append] at h1
    have main : ∀ (l : List TableDefinition), (∀ tb ∈ l, tb.name ≠ t) →
        ∀ (d : Dir), (∀ q ∈ d, q.1 ≠ t ++ ".json".toList) →
        ∀ q ∈ List.foldl write_to_file d l, q.1 ≠ t ++ ".json".toList := by
      intro l
      induction l with
      | nil => intro _ d hd q hq; exact hd q hq
      | cons tb tbs ih =>
        intro hl d hd
        refine ih (fun x hx => hl x (List.mem_cons_of_mem _ hx)) _ ?_
        intro q hq
        unfold write_to_file writeFile at hq
        rcases List.mem_append.mp hq with h' | h'
        · exact hd q (List.mem_filter.mp h').1
        · have hq' : q = (tb.name ++ ".json".toList, tableJson tb) := by simpa using h'
          subst hq'
          intro hcontra
          exact hl tb (List.mem_cons_self tb tbs) (List.append_cancel_right hcontra)
    exact main ts hts _ base

/-- Witness for C3: rebuilding over a directory holding a stale `b.json`
with an introspection that only finds table `a` leaves a directory whose
single unit is `a.json`, not `b.json`. -/
theorem C3_full_replace_witness :
    Py.endswith ("keep.txt".toList) (".json".toList) = false
    ∧ ("a.json".toList : Py.Str) ≠ "b.json".toList :=
  ⟨C3_full_replace.1 [("keep.txt".toList, Json.null)]
     ("keep.txt".toList, Json.null) (List.Mem.head _),
   C3_full_replace.2 [⟨"a".toList, []⟩]
     ⟨[("b.json".toList, Json.null)], []⟩ ("b".toList)
     (by decide)
     ("a.json".toList, tableJson ⟨"a".toList, []⟩)
     (List.Mem.head _)⟩

theorem dispatch_unknown (ops : MongoDB.Ops) (coll op : Py.Str) (args : Json)
    (h1 : op ≠ "find".toList) (h2 : op ≠ "find_one".toList)
    (h3 : op ≠ "count_documents".toList) (h4 : op ≠ "aggregate".toList)
    (h5 : op ≠ "distinct".toList) :
    MongoDB.dispatch ops coll op args = .error ("Unsupported operation: ".toList ++ op) := by
  unfold MongoDB.dispatch
  rw [if_neg (by simpa using h1), if_neg (by simpa using h2), if_neg (by simpa using h3),
    if_neg (by simpa using h4), if_neg (by simpa using h5)]

theorem runOperation_ok (jloads : Py.Str → Except Py.Str Json) (ops : MongoDB.Ops)
    (q coll op args : Py.Str) (h : MongoDB.parseQuery q = .ok (coll, op, args)) :
    MongoDB.runOperation jloads ops q =
      match (if (Py.strip args).isEmpty then .ok (Json.obj []) else jloads args :
          Except Py.Str Json) with
      | .error e => .error e
      | .ok a =>
        match MongoDB.dispatch ops coll op a with
        | .error e => .error e
        | .ok results => .ok (MongoDB.convertObjectId (Json.arr results)) := by
  unfold MongoDB.runOperation
  rw [h]

/-- Claim C6: the document-store operation parser dispatches on the closed
set {find, find_one, count_documents, aggregate, distinct}: a successfully
parsed query whose operation name is outside the set always raises (for any
argument text and any driver state), and `"users.count_documents({})"`
dispatches to the count operation on collection `users`, returning the
single-field count result. -/
theorem C6_mongo_ops :
    (∀ (jloads : Py.Str → Except Py.Str Json) (ops : MongoDB.Ops) (q coll op args : Py.Str),
      MongoDB.parseQuery q = .ok (coll, op, args) →
      op ≠ "find".toList → op ≠ "find_one".toList → op ≠ "count_documents".toList →
      op ≠ "aggregate".toList → op ≠ "distinct".toList →
      ∃ e, MongoDB.execute_query jloads ops q = .error e)
    ∧ (∀ (jloads : Py.Str → Except Py.Str Json) (ops : MongoDB.Ops),
      jloads ("{}".toList) = .ok (Json.obj []) →
      MongoDB.execute_query jloads ops ("users.count_documents({})".toList) =
        .ok (Json.arr [Json.obj [("count".toList,
          Json.num (ops.countDocs ("users".toList) (Json.obj [])))]])) := by
  constructor
  · intro jloads ops q coll op args hparse h1 h2 h3 h4 h5
    have hrun : ∃ e, MongoDB.runOperation jloads ops q = .error e := by
      rw [runOperation_ok jloads ops q coll op args hparse]
      split
      · exact ⟨_, rfl⟩
      · rw [dispatch_unknown ops coll op _ h1 h2 h3 h4 h5]
        exact ⟨_, rfl⟩
    rcases hrun with ⟨e, he⟩
    refine ⟨"Failed to execute MongoDB query: ".toList ++ e, ?_⟩
    unfold MongoDB.execute_query
    rw [he]
  · intro jloads ops hjl
    have hparse : MongoDB.parseQuery ("users.count_documents({})".toList) =
        .ok ("users".toList, "count_documents".toList, "{}".toList) := rfl
    unfold MongoDB.execute_query
    rw [runOperation_ok jloads ops _ _ _ _ hparse, if_neg (by decide), hjl]
    show Except.ok (MongoDB.convertObjectId (Json.arr [Json.obj [("count".toList,
        Json.num (ops.countDocs ("users".toList) (Json.obj [])))]])) = _
    simp [MongoDB.convertObjectId]

/-- Witness for C6: `"users.unknown_op()"` raises, and
`"users.count_documents({})"` returns the count envelope, on a concrete
driver state. -/
theorem C6_mongo_ops_witness :
    (∃ e, MongoDB.execute_query (fun _ => .ok Json.null) trivialMongoOps
      ("users.unknown_op()".toList) = .error e)
    ∧ MongoDB.execute_query (fun _ => .ok (Json.obj [])) trivialMongoOps
        ("users.count_documents({})".toList)
      = .ok (Json.arr [Json.obj [("count".toList,
          Json.num (trivialMongoOps.countDocs ("users".toList) (Json.obj [])))]]) :=
  ⟨C6_mongo_ops.1 (fun _ => .ok Json.null) trivialMongoOps ("users.unknown_op()".toList)
     ("users".toList) ("unknown_op".toList) [] rfl
     (by decide) (by decide) (by decide) (by decide) (by decide),
   C6_mongo_ops.2 (fun _ => .ok (Json.obj [])) trivialMongoOps rfl⟩

theorem mem_dictUpdate_of_ne {V : Type} {l : List (Py.Str × V)} {k : Py.Str} {g : V → V}
    {f : Py.Str} {i : V} (hne : f ≠ k) (h : (f, i) ∈ l) : (f, i) ∈ dictUpdate l k g := by
  unfold dictUpdate
  exact List.mem_map.mpr ⟨(f, i), h, by simp [hne]⟩

theorem mem_dictUpdate_of_eq {V : Type} {l : List (Py.Str × V)} {k : Py.Str} {g : V → V}
    {i : V} (h : (k, i) ∈ l) : (k, g i) ∈ dictUpdate l k g := by
  unfold dictUpdate
  exact List.mem_map.mpr ⟨(k, i), h, by simp⟩

theorem exists_mem_dictUpdate {V : Type} (l : List (Py.Str × V)) (k : Py.Str) (g : V → V)
    (f : Py.Str) (hex : ∃ i, (f, i) ∈ l) : ∃ j, (f, j) ∈ dictUpdate l k g := by
  rcases hex with ⟨i, hi⟩
  by_cases hk : f = k
  · subst hk
    exact ⟨g i, mem_dictUpdate_of_eq hi⟩
  · exact ⟨i, mem_dictUpdate_of_ne hk hi⟩

theorem not_mem_of_dictHas_false {V : Type} {l : List (Py.Str × V)} {k : Py.Str}
    (h : dictHas l k = false) : ∀ p ∈ l, p.1 ≠ k := by
  intro p hp
  have := List.any_eq_false.mp h p hp
  simpa using this

theorem mem_insertType {ts : List Py.Str} {t x : Py.Str} :
    x ∈ MongoDB.insertType ts t ↔ (x ∈ ts ∨ x = t) := by
  unfold MongoDB.insertType
  split
  · rename_i hc
    have ht : t ∈ ts := by simpa using hc
    constructor
    · exact Or.inl
    · rintro (h | rfl)
      · exact h
      · exact ht
  · simp

theorem nodup_insertType {ts : List Py.Str} {t : Py.Str} (h : ts.Nodup) :
    (MongoDB.insertType ts t).Nodup := by
  unfold MongoDB.insertType
  split
  · exact h
  · rename_i hc
    have ht : t ∉ ts := by simpa using hc
    simp [List.nodup_append, h, ht]

theorem fieldsInv_step (items : List (Py.Str × Option Py.Str))
    (acc : List (Py.Str × MongoDB.FieldInfo)) (f0 : Py.Str) (v0 : Option Py.Str)
    (h : FieldsInv items acc) :
    FieldsInv (items ++ [(f0, v0)]) (MongoDB.stepField acc (f0, v0)) := by
  obtain ⟨hex, hprop⟩ := h
  show FieldsInv (items ++ [(f0, v0)])
    (dictUpdate (if dictHas acc f0 then acc
        else acc ++ [(f0, ⟨[], false, f0 == "_id".toList⟩)]) f0
      (fun info => match v0 with
        | none => { info with nullable := true }
        | some t => { info with types := MongoDB.insertType info.types t }))
  by_cases hd : dictHas acc f0
  · rw [if_pos hd]
    constructor
    · intro f v hfv
      rcases List.mem_append.mp hfv with hin | hlast
      · exact exists_mem_dictUpdate acc f0 _ f (hex f v hin)
      · have hf : f = f0 := congrArg Prod.fst (List.mem_singleton.mp hlast)
        rw [hf]
        obtain ⟨q, hq, hqk⟩ := List.any_eq_true.mp hd
        obtain ⟨q1, q2⟩ := q
        have hq1 : q1 = f0 := by simpa using hqk
        exact exists_mem_dictUpdate acc f0 _ f0 ⟨q2, hq1 ▸ hq⟩
    · intro f i hfi
      rcases mem_dictUpdate_cases hfi with ⟨hin, hne⟩ | ⟨w, hw, heq⟩
      · obtain ⟨hid, hnul, hnodup, htypes⟩ := hprop f i hin
        refine ⟨hid, ?_, hnodup, ?_⟩
        · rw [hnul]
          simp [List.mem_append, Prod.ext_iff, hne]
        · intro t
          rw [htypes t]
          simp [List.mem_append, Prod.ext_iff, hne]
      · injection heq with hf hi
        subst hi
        rw [hf]
        obtain ⟨hid, hnul, hnodup, htypes⟩ := hprop f0 w hw
        cases v0 with
        | none =>
          refine ⟨hid, ?_, hnodup, ?_⟩
          · simp [List.mem_append]
          · intro t
            show t ∈ w.types ↔ _
            rw [htypes t]
            simp [List.mem_append]
        | some t0 =>
          refine ⟨hid, ?_, nodup_insertType hnodup, ?_⟩
          · show w.nullable = true ↔ _
            rw [hnul]
            simp [List.mem_append]
          · intro t
            show t ∈ MongoDB.insertType w.types t0 ↔ _
            rw [mem_insertType, htypes t]
            simp [List.mem_append]
  · rw [if_neg hd]
    have hfresh := not_mem_of_dictHas_false (by simpa using hd)
    constructor
    · intro f v hfv
      rcases List.mem_append.mp hfv with hin | hlast
      · rcases hex f v hin with ⟨i, hi⟩
        exact exists_mem_dictUpdate _ f0 _ f ⟨i, List.mem_append.mpr (Or.inl hi)⟩
      · have hf : f = f0 := congrArg Prod.fst (List.mem_singleton.mp hlast)
        rw [hf]
        exact exists_mem_dictUpdate _ f0 _ f0
          ⟨⟨[], false, f0 == "_id".toList⟩, List.mem_append.mpr (Or.inr (List.Mem.head _))⟩
    · intro f i hfi
      rcases mem_dictUpdate_cases hfi with ⟨hin, hne⟩ | ⟨w, hw, heq⟩
      · rcases List.mem_append.mp hin with hold | hnew
        · obtain ⟨hid, hnul, hnodup, htypes⟩ := hprop f i hold
          refine ⟨hid, ?_, hnodup, ?_⟩
          · rw [hnul]
            simp [List.mem_append, Prod.ext_iff, hne]
          · intro t
            rw [htypes t]
            simp [List.mem_append, Prod.ext_iff, hne]
        · exact absurd (congrArg Prod.fst (List.mem_singleton.mp hnew)) hne
      · injection heq with hf hi
        subst hi
        rw [hf]
        have hnof : ∀ x, (f0, x) ∉ items := by
          intro x hx
          rcases hex f0 x hx with ⟨j, hj⟩
          exact hfresh (f0, j) hj rfl
        rcases List.mem_append.mp hw with hold | hnew
        · exact absurd rfl (hfresh (f0, w) hold)
        · have hwinit : w = ⟨[], false, f0 == "_id".toList⟩ :=
            congrArg Prod.snd (List.mem_singleton.mp hnew)
          subst hwinit
          cases v0 with
          | none =>
            refine ⟨rfl, ?_, List.nodup_nil, ?_⟩
            · simp [List.mem_append]
            · intro t
              show t ∈ ([] : List Py.Str) ↔ _
              simp [List.mem_append, hnof (some t)]
          | some t0 =>
            refine ⟨rfl, ?_, ?_, ?_⟩
            · show false = true ↔ _
              simp [List.mem_append, hnof none]
            · show (MongoDB.insertType [] t0).Nodup
              exact nodup_insertType List.nodup_nil
            · intro t
              show t ∈ MongoDB.insertType [] t0 ↔ _
              rw [mem_insertType]
              simp [List.mem_append, hnof (some t), Prod.ext_iff]

theorem fieldsInv_foldl (items : List (Py.Str × Option Py.Str)) :
    FieldsInv items (items.foldl MongoDB.stepField []) := by
  induction items using List.reverseRecOn with
  | nil => exact ⟨fun f v h => absurd h (by simp), fun f i h => absurd h (by simp)⟩
  | append_singleton l p ih =>
    rw [List.foldl_append]
    obtain ⟨p1, p2⟩ := p
    simpa using fieldsInv_step l _ p1 p2 ih

theorem nested_foldl_eq_flatten (docs : List MongoDB.Doc) :
    (docs.foldl (fun acc doc => doc.foldl MongoDB.stepField acc) [])
      = ((docs.flatten).foldl MongoDB.stepField []) :=
  (List.foldl_flatten _ _ _).symm

/-- Claim C7 counterexample: in a two-document sample where field `x` is
present (non-null) in the first document and absent from the second, the
inferred column for `x` has `is_nullable = false` — absence of a field in
a sampled document does not mark it nullable, contradicting the claim's
"null or absent". -/
theorem C7_counterexample :
    ("x".toList, xSampleColumn) ∈ MongoDB.inferColumns C7docs
    ∧ xSampleColumn.is_nullable = false := by
  constructor
  · decide
  · decide

/-- Claim C7 amended: schema inference samples at most 100 documents per
collection; a field is marked nullable exactly when some sampled document
holds an explicit null for it (absence does not count); `data_type` is the
comma-joined sorted list of exactly the observed value-type names, with
the literal `"mixed"` when no non-null value was observed; the `_id` field
is the primary key; and columns are never foreign keys. -/
theorem C7_mongo_inference :
    (∀ docs : List MongoDB.Doc,
      MongoDB.inferColumns docs = MongoDB.inferColumns (docs.take 100))
    ∧ (∀ (docs : List MongoDB.Doc) (f : Py.Str) (c : ColumnDefinition),
        (f, c) ∈ MongoDB.inferColumns docs →
        c.name = f
        ∧ c.is_primary_key = (f == "_id".toList)
        ∧ c.is_foreign_key = false
        ∧ c.foreign_key_reference = []
        ∧ c.comments = "Inferred from ".toList
            ++ Py.natStr (docs.take 100).length ++ " sample documents".toList
        ∧ (c.is_nullable = true ↔ (f, none) ∈ (docs.take 100).flatten)
        ∧ (∃ ts : List Py.Str, ts.Nodup
            ∧ (∀ t, t ∈ ts ↔ (f, some t) ∈ (docs.take 100).flatten)
            ∧ c.data_type = (if ts.isEmpty then "mixed".toList else MongoDB.joinSorted ts))) := by
  constructor
  · intro docs
    unfold MongoDB.inferColumns
    rw [List.take_take]
    norm_num
  · intro docs f c hfc
    unfold MongoDB.inferColumns at hfc
    rcases List.mem_map.mp hfc with ⟨q, hq, hpq⟩
    obtain ⟨q1, q2⟩ := q
    injection hpq with hf hc
    rw [← hf, ← hc]
    rw [nested_foldl_eq_flatten] at hq
    obtain ⟨hid, hnul, hnodup, htypes⟩ := (fieldsInv_foldl ((docs.take 100).flatten)).2 q1 q2 hq
    refine ⟨rfl, hid, rfl, rfl, rfl, hnul, q2.types, hnodup, htypes, rfl⟩

/-- Witness for C7 at the concrete sample `C7docs`: the inferred `x`
column is named `x` and its nullability reflects exactly the (absent)
explicit nulls. -/
theorem C7_mongo_inference_witness :
    xSampleColumn.name = "x".toList
    ∧ (xSampleColumn.is_nullable = true ↔
        ("x".toList, (none : Option Py.Str)) ∈ (C7docs.take 100).flatten) := by
  have h := C7_mongo_inference.2 C7docs ("x".toList) xSampleColumn (by decide)
  exact ⟨h.1, h.2.2.2.2.2.1⟩
